import Mathlib

/-
Verification of the receipt-rendering and printer-dispatch subsystem of
`pedidos2.py` (class `ThermalPrinter` plus the `Database.get_setting`
accessor it reads).  Python strings are embedded as `List Char`; currency
amounts are embedded as exact non-negative integer cent counts, so the
Python float format `f"{p:.2f}"` becomes the exact rendering `fmt2` of a
cent count.  Byte strings are `List Nat` produced by a UTF-8 encoder.
Python's negative-index slicing, `str.center`, `int(s)` / `int(s, 16)`
parsing and `' ' * n` for possibly negative `n` are each modelled by a
dedicated function.
-/

/-- Python strings are modelled as lists of characters. -/
abbrev Str := List Char

/-- Python `str.strip()` as used by `int()`: drop whitespace on both ends. -/
def stripWs (l : Str) : Str :=
  ((l.dropWhile Char.isWhitespace).reverse.dropWhile Char.isWhitespace).reverse

/-- Tail of Python base-10 digit parsing: digits with single underscores
allowed between digits (as `int()` accepts), accumulating the value. -/
def duGo (acc : Nat) : Str → Option Nat
  | [] => some acc
  | '_' :: c :: rest =>
      if c.isDigit then duGo (acc * 10 + (c.toNat - 48)) rest else none
  | c :: rest =>
      if c.isDigit then duGo (acc * 10 + (c.toNat - 48)) rest else none

/-- Python base-10 digit-run parsing: nonempty, starts with a digit. -/
def duVal : Str → Option Nat
  | [] => none
  | c :: rest => if c.isDigit then duGo (c.toNat - 48) rest else none

/-- Python `int(s)`: strip whitespace, optional sign, digit run. -/
def pyIntParse (s : String) : Option Int :=
  match stripWs s.data with
  | '+' :: rest => (duVal rest).map Int.ofNat
  | '-' :: rest => (duVal rest).map (fun n => -(n : Int))
  | l => (duVal l).map Int.ofNat

/-- Value of one hexadecimal digit character, if it is one. -/
def hexDigitVal (c : Char) : Option Nat :=
  if c.isDigit then some (c.toNat - 48)
  else if 'a' ≤ c ∧ c ≤ 'f' then some (c.toNat - 87)
  else if 'A' ≤ c ∧ c ≤ 'F' then some (c.toNat - 55)
  else none

/-- Tail of Python base-16 digit parsing (single underscores allowed). -/
def hexGo (acc : Nat) : Str → Option Nat
  | [] => some acc
  | '_' :: c :: rest =>
      match hexDigitVal c with
      | some d => hexGo (acc * 16 + d) rest
      | none => none
  | c :: rest =>
      match hexDigitVal c with
      | some d => hexGo (acc * 16 + d) rest
      | none => none

/-- Python base-16 digit-run parsing: nonempty, starts with a hex digit. -/
def hexVal : Str → Option Nat
  | [] => none
  | c :: rest =>
      match hexDigitVal c with
      | some d => hexGo d rest
      | none => none

/-- Body of Python `int(s, 16)` after the sign: optional `0x`/`0X`
(with at most one underscore straight after it), then hex digits. -/
def pyHexBody : Str → Option Nat
  | '0' :: 'x' :: '_' :: rest => hexVal rest
  | '0' :: 'x' :: rest => hexVal rest
  | '0' :: 'X' :: '_' :: rest => hexVal rest
  | '0' :: 'X' :: rest => hexVal rest
  | l => hexVal l

/-- Python `int(s, 16)`: strip whitespace, optional sign, hex body. -/
def pyHexParse (s : String) : Option Int :=
  match stripWs s.data with
  | '+' :: rest => (pyHexBody rest).map Int.ofNat
  | '-' :: rest => (pyHexBody rest).map (fun n => -(n : Int))
  | l => (pyHexBody l).map Int.ofNat

/-- Digits of `n` in base 10, most significant first, by structural
recursion on a fuel bound so that the kernel can evaluate it. -/
def natCharsAux : Nat → Nat → Str
  | 0, _ => []
  | fuel + 1, n =>
      if n = 0 then []
      else natCharsAux fuel (n / 10) ++ [Nat.digitChar (n % 10)]

/-- Python `str(n)` for a non-negative integer `n`. -/
def natChars (n : Nat) : Str :=
  if n = 0 then ['0'] else natCharsAux n n

/-- Python `f"{p:.2f}"` on an exact amount of `c` cents: the integer part
followed by a dot and exactly two decimal digits. -/
def fmt2 (c : Nat) : Str :=
  natChars (c / 100) ++ '.' ::
    (if c % 100 < 10 then '0' :: natChars (c % 100) else natChars (c % 100))

/-- Reads a decimal digit run back into a number (used to interpret the
amounts displayed on a receipt). -/
def unDigits (l : Str) : Nat :=
  l.foldl (fun a c => a * 10 + (c.toNat - 48)) 0

/-- True for every character except the decimal dot. -/
def notDot (c : Char) : Bool := c != '.'

/-- Reads a displayed `"<int>.<2 digits>"` amount back into cents. -/
def parse2 (s : Str) : Nat :=
  unDigits (s.takeWhile notDot) * 100 + unDigits ((s.dropWhile notDot).drop 1)

/-- Python `s[:k]`, including negative-index slicing: a negative bound
counts from the end of the string, clamped at zero. -/
def pyTake (s : Str) (k : Int) : Str :=
  if k < 0 then s.take ((s.length : Int) + k).toNat else s.take k.toNat

/-- Python `' ' * m` for a possibly negative `m` (empty when `m ≤ 0`). -/
def pySpaces (m : Int) : Str := List.replicate m.toNat ' '

/-- Python `s.center(width)`: unchanged when `s` already fills the width,
otherwise pad both sides, extra character to the right when the leftover
is odd and the width even (CPython puts it left only when both the margin
and the width are odd). -/
def pyCenter (s : Str) (width : Nat) : Str :=
  if width ≤ s.length then s
  else
    List.replicate ((width - s.length) / 2 + (width - s.length) % 2 * (width % 2)) ' '
      ++ s ++
    List.replicate ((width - s.length) - ((width - s.length) / 2 + (width - s.length) % 2 * (width % 2))) ' '

/-- The `'-' * 32` separator row of `_build_text`. -/
def sep32 : Str := List.replicate 32 '-'

/-- The truncation step of an item row (lines 143-144): `line` is cut to
`line[:32 - len(price_line) - 1]` when the two parts overflow 32
columns, and kept whole otherwise. -/
def fitLine (line price : Str) : Str :=
  if 32 < line.length + price.length
  then pyTake line ((32 : Int) - price.length - 1)
  else line

/-- The assembly of an item row (line 145): possibly-truncated left
part, `' ' * (32 - len(line) - len(price_line))`, then the amount. -/
def padRow (line price : Str) : Str :=
  fitLine line price
    ++ pySpaces ((32 : Int) - (fitLine line price).length - price.length)
    ++ price

/-- One item row of `_build_text` (lines 140-145 of `pedidos2.py`):
`line = f"{q}x {n}"`, `price_line = f"{p:.2f}"`, hard truncation when
the two parts overflow 32 columns, then space padding so the amount
sits rightmost. -/
def itemRow (q : Nat) (n : Str) (p : Nat) : Str :=
  padRow (natChars q ++ "x ".data ++ n) (fmt2 p)

/-- The TOTAL row of `_build_text` (line 147): the literal `TOTAL`, a
fixed run of 27 spaces, then the 2-decimal total. -/
def totalRow (t : Nat) : Str :=
  "TOTAL".data ++ List.replicate 27 ' ' ++ fmt2 t

/-- The `store` dictionary passed to `print_receipt`: the three keys the
code reads, each possibly absent (`dict.get` with a default). -/
structure Store where
  name : Option Str
  address : Option Str
  phone : Option Str
deriving DecidableEq

/-- The rows built by `ThermalPrinter._build_text` (lines 131-151), in
order: centered name (default `'Minha Loja'`), centered address and
`'Tel: '` + phone when non-empty, separator, item rows, separator, TOTAL
row, payment row, separator, thank-you row, and a final `'\n'` element. -/
def build_text_lines (store : Store) (items : List (Nat × Str × Nat))
    (total : Nat) (payment : Str) : List Str :=
  [pyCenter (store.name.getD "Minha Loja".data) 32]
  ++ (if store.address.getD [] ≠ [] then [pyCenter (store.address.getD []) 32] else [])
  ++ (if store.phone.getD [] ≠ [] then [pyCenter ("Tel: ".data ++ store.phone.getD []) 32] else [])
  ++ [sep32]
  ++ items.map (fun it => itemRow it.1 it.2.1 it.2.2)
  ++ [sep32, totalRow total, "Pagamento: ".data ++ payment, sep32, "Obrigado!".data, ['\n']]

/-- UTF-8 encoding of one character. -/
def utf8Char (c : Char) : List Nat :=
  let n := c.toNat
  if n < 128 then [n]
  else if n < 2048 then [192 ||| (n >>> 6), 128 ||| (n &&& 63)]
  else if n < 65536 then
    [224 ||| (n >>> 12), 128 ||| ((n >>> 6) &&& 63), 128 ||| (n &&& 63)]
  else
    [240 ||| (n >>> 18), 128 ||| ((n >>> 12) &&& 63), 128 ||| ((n >>> 6) &&& 63), 128 ||| (n &&& 63)]

/-- Python `s.encode('utf-8')`. -/
def encodeUtf8 (s : Str) : List Nat := (s.map utf8Char).flatten

/-- `ThermalPrinter._build_text`: the rows joined by newlines and UTF-8
encoded (line 152). -/
def build_text (store : Store) (items : List (Nat × Str × Nat))
    (total : Nat) (payment : Str) : List Nat :=
  encodeUtf8 (List.intercalate ['\n'] (build_text_lines store items total payment))

/-- The SQLite database of `pedidos2.py`: the `settings` key/value table
(first match wins, `k` is the primary key) plus the `products` and
`sales` tables, carried so that statements about the database state
cover all persistent contents. -/
structure Database where
  settings : List (String × String)
  products : List (Nat × String × String × Nat)
  sales : List (String × Nat × String × String)
deriving DecidableEq

/-- The value `Database.get_setting` returns: the stored `v` for key `k`
when a row exists, the supplied default otherwise (lines 103-107). -/
def Database.get_setting_val (db : Database) (k default : String) : String :=
  match db.settings.find? (fun kv => kv.1 == k) with
  | some kv => kv.2
  | none => default

/-- `Database.get_setting` as a state-passing operation: a `SELECT`
changes nothing, so the database comes back unchanged. -/
def Database.get_setting (db : Database) (k default : String) : String × Database :=
  (db.get_setting_val k default, db)

/-- `Database.set_setting` (lines 98-101, `INSERT OR REPLACE`): the only
settings mutator of the class; `print_receipt` never calls it. -/
def Database.set_setting (db : Database) (k v : String) : Database :=
  { db with settings := (k, v) :: db.settings.filter (fun kv => kv.1 != k) }

/-- What `ThermalPrinter.print_receipt` does with one call: abort on an
unparsable port, or hand the receipt to one of the two transports. -/
inductive Outcome where
  | errInvalidPort : Outcome
  | netSend (ip : String) (port : Int) (data : List Nat) : Outcome
  | usbAttempt (vendor product : Option Int) : Outcome
deriving DecidableEq

/-- True when the dispatcher routed to the USB/ESC-POS transport. -/
def Outcome.isUsb : Outcome → Bool
  | .usbAttempt _ _ => true
  | _ => false

/-- True when the dispatcher invoked the network transport. -/
def Outcome.isNet : Outcome → Bool
  | .netSend _ _ _ => true
  | _ => false

/-- `ThermalPrinter.print_receipt` (lines 114-129): read the five
settings in source order, parse the port (Python `int` raises there on a
non-numeric string, before `_build_text` and before any transport),
build the text, then select the transport: network when
`mode == 'network'`, USB when `mode == 'escpos_usb'` and the ESC/POS
backend is available and both ids are non-empty (their base-16 parses
are what `int(vendor,16)` / `int(product,16)` produce), network
fallback otherwise.  The returned database is the post-call state. -/
def print_receipt (avail : Bool) (db : Database) (store : Store)
    (items : List (Nat × Str × Nat)) (total : Nat) (payment : Str) :
    Outcome × Database :=
  let r1 := db.get_setting "printer_mode" "network"
  let r2 := r1.2.get_setting "printer_ip" "192.168.0.100"
  let r3 := r2.2.get_setting "printer_port" "9100"
  match pyIntParse r3.1 with
  | none => (Outcome.errInvalidPort, r3.2)
  | some port =>
    let r4 := r3.2.get_setting "printer_usb_vendor" ""
    let r5 := r4.2.get_setting "printer_usb_product" ""
    let text := build_text store items total payment
    if r1.1 = "network" then (Outcome.netSend r2.1 port text, r5.2)
    else if r1.1 = "escpos_usb" ∧ avail = true ∧ r4.1 ≠ "" ∧ r5.1 ≠ "" then
      (Outcome.usbAttempt (pyHexParse r4.1) (pyHexParse r5.1), r5.2)
    else (Outcome.netSend r2.1 port text, r5.2)

/-- Transport-level failures of the network path. -/
inductive NetErr where
  | connectionRefused : NetErr
  | timeout : NetErr
  | writeError : NetErr
deriving DecidableEq

/-- Behaviour of the peer/socket for one `_print_network` call: whether
`connect` fails and, if it succeeds, whether `sendall` fails. -/
structure SocketSpec where
  connectErr : Option NetErr
  sendErr : Option NetErr
deriving DecidableEq

/-- Observable effects of one `_print_network` call: its return or
raised error, whether the socket ended up closed, every payload handed
to `sendall`, and the timeout that was set on the socket. -/
structure NetResult where
  result : Except NetErr Bool
  closed : Bool
  sends : List (List Nat)
  timeoutSec : Option Nat

/-- `ThermalPrinter._print_network` (lines 154-162): `with socket(...)`
sets a 5 second timeout, connects, sends the whole byte block in one
`sendall`, and the `with` block closes the socket on every exit path;
the `except` clause re-raises unchanged. -/
def print_network (sock : SocketSpec) (ip : String) (port : Int)
    (data : List Nat) : NetResult :=
  match sock.connectErr with
  | some e => ⟨Except.error e, true, [], some 5⟩
  | none =>
    match sock.sendErr with
    | some e => ⟨Except.error e, true, [], some 5⟩
    | none => ⟨Except.ok true, true, [data], some 5⟩

/-- Commands issued to the ESC/POS USB device object. -/
inductive UsbOp where
  | openDev (vendor product : Int) : UsbOp
  | text (s : Str) : UsbOp
  | cut : UsbOp
  | close : UsbOp
deriving DecidableEq

/-- Whether the USB command sequence completed or raised mid-way. -/
inductive UsbRes where
  | ok : UsbRes
  | raised : UsbRes
deriving DecidableEq

/-- The command sequence `_print_escpos_usb` issues after opening the
device (lines 168-175): name (default `''` here), separator, one line
per item, separator, TOTAL line, payment line, paper cut. -/
def escposCmds (store : Store) (items : List (Nat × Str × Nat))
    (total : Nat) (payment : Str) : List UsbOp :=
  [UsbOp.text (store.name.getD [] ++ ['\n']),
   UsbOp.text (List.replicate 32 '-' ++ ['\n'])]
  ++ items.map (fun it =>
       UsbOp.text (natChars it.1 ++ "x ".data ++ it.2.1 ++ " - ".data ++ fmt2 it.2.2 ++ ['\n']))
  ++ [UsbOp.text (List.replicate 32 '-' ++ ['\n']),
      UsbOp.text ("TOTAL: ".data ++ fmt2 total ++ ['\n']),
      UsbOp.text ("Pagamento: ".data ++ payment ++ ['\n']),
      UsbOp.cut]

/-- `ThermalPrinter._print_escpos_usb` (lines 164-176) run against a
device that may raise at command index `failAt` (0 is the `Usb(...)`
open itself): the trace of device operations actually issued and the
outcome.  When the backend is unavailable the function raises before
touching the device.  The source has no `close`, no `with` and no
`finally`: whatever happens, no release operation is issued. -/
def run_escpos_usb (avail : Bool) (failAt : Option Nat) (vendor product : Int)
    (store : Store) (items : List (Nat × Str × Nat)) (total : Nat)
    (payment : Str) : List UsbOp × UsbRes :=
  if avail = false then ([], UsbRes.raised)
  else
    let allOps := UsbOp.openDev vendor product :: escposCmds store items total payment
    match failAt with
    | some k =>
        if k < allOps.length then (allOps.take k, UsbRes.raised)
        else (allOps, UsbRes.ok)
    | none => (allOps, UsbRes.ok)

/-- A store dictionary with none of the three keys present. -/
def store0 : Store := ⟨none, none, none⟩

/-- A store dictionary carrying only a name. -/
def storeBH : Store := ⟨some "Burger House".data, none, none⟩

/-- A 33-character store name, one more than the receipt column width. -/
def name33 : Str := List.replicate 33 'a'

/-- A configuration selecting the USB mode with both ids set and the
port left at its default. -/
def dbUsbOk : Database :=
  ⟨[("printer_mode", "escpos_usb"), ("printer_usb_vendor", "04b8"),
    ("printer_usb_product", "0202")], [], []⟩

/-- A configuration selecting the USB mode with both ids set but a
non-numeric port value. -/
def dbPortBad : Database :=
  ⟨[("printer_mode", "escpos_usb"), ("printer_port", "abc"),
    ("printer_usb_vendor", "04b8"), ("printer_usb_product", "0202")], [], []⟩

/-- The worked cart of the specification: two burgers and one soda. -/
def itemsEx : List (Nat × Str × Nat) :=
  [(2, "Burguer Classico".data, 2500), (1, "Refrigerante Lata".data, 500)]

/-- A non-negative binary floating-point value held exactly:
`num / 2 ^ exp` dollars.  Every IEEE double is of this form, and the
cart line totals of the source (`qty * price` computed in float) are
such values. -/
structure Dyadic where
  num : Nat
  exp : Nat
deriving DecidableEq

/-- Equality of the values two dyadics denote (cross-multiplied). -/
abbrev dyEq (x y : Dyadic) : Prop := x.num * 2 ^ y.exp = y.num * 2 ^ x.exp

/-- Exact addition of two dyadic values (a common power-of-two
denominator always exists, so no rounding is involved). -/
def dyAdd (x y : Dyadic) : Dyadic :=
  ⟨x.num * 2 ^ y.exp + y.num * 2 ^ x.exp, x.exp + y.exp⟩

/-- Exact sum of a list of dyadic values. -/
def dySum (l : List Dyadic) : Dyadic := l.foldr dyAdd ⟨0, 0⟩

/-- The value `num / 2 ^ exp` has no sub-cent part: `100 * value` is an
integer. -/
abbrev wholeCents (x : Dyadic) : Prop := 100 * x.num % 2 ^ x.exp = 0

/-- The integer cent count that `%.2f` displays for the float holding
the exact value `num / 2 ^ exp`: Python formats the correctly rounded
decimal of the exact binary value, round-half-even, i.e. half-even
rounding of `100 * num / 2 ^ exp`. -/
def floatCents (x : Dyadic) : Nat :=
  if 2 ^ x.exp < 2 * (100 * x.num % 2 ^ x.exp) then 100 * x.num / 2 ^ x.exp + 1
  else if 2 * (100 * x.num % 2 ^ x.exp) < 2 ^ x.exp then 100 * x.num / 2 ^ x.exp
  else if (100 * x.num / 2 ^ x.exp) % 2 = 0 then 100 * x.num / 2 ^ x.exp
  else 100 * x.num / 2 ^ x.exp + 1

/-- `f"{p:.2f}"` (lines 142 and 147) on a float holding the exact value
`x`: the 2-decimal rendering of its correctly rounded cent count. -/
def fmt2f (x : Dyadic) : Str := fmt2 (floatCents x)

/-- One item row of `_build_text` when the line total is the float
value `x`: the amount enters the row only through `f"{p:.2f}"`. -/
def itemRowF (q : Nat) (n : Str) (x : Dyadic) : Str := itemRow q n (floatCents x)

/-- The TOTAL row of `_build_text` when the total is the float value
`x`. -/
def totalRowF (x : Dyadic) : Str := totalRow (floatCents x)

/-- `_build_text` over float amounts: lines 140-147 use each amount
only through `f"{...:.2f}"`, so the float formatter is
`build_text_lines` applied to each amount's correctly rounded cents. -/
def build_text_lines_f (store : Store) (items : List (Nat × Str × Dyadic))
    (total : Dyadic) (payment : Str) : List Str :=
  build_text_lines store (items.map (fun it => (it.1, it.2.1, floatCents it.2.2)))
    (floatCents total) payment

/-- The float value 0.125, exactly representable in a binary double. -/
def eighth : Dyadic := ⟨1, 3⟩

/-- The float value 0.25, exactly representable in a binary double. -/
def quarter : Dyadic := ⟨1, 2⟩

/-- A cart of two lines whose float line totals are exactly 0.125. -/
def itemsF : List (Nat × Str × Dyadic) :=
  [(1, "Bala".data, eighth), (1, "Bala".data, eighth)]

/-- The worked cart with whole-cent float line totals 25.00 and 5.00. -/
def itemsD : List (Nat × Str × Dyadic) :=
  [(2, "Burguer Classico".data, ⟨25, 0⟩), (1, "Refrigerante Lata".data, ⟨5, 0⟩)]

theorem natCharsAux_eq (fuel n : Nat) (h : n ≤ fuel) :
    natCharsAux fuel n = ((Nat.digits 10 n).map Nat.digitChar).reverse := by
  induction fuel generalizing n with
  | zero =>
      have : n = 0 := Nat.le_zero.mp h
      subst this
      simp [natCharsAux]
  | succ fuel ih =>
      by_cases hn : n = 0
      · subst hn
        simp [natCharsAux]
      · have hpos : 0 < n := Nat.pos_of_ne_zero hn
        have hdiv : n / 10 ≤ fuel := by
          have := Nat.div_lt_self hpos (by norm_num : 1 < 10)
          omega
        rw [natCharsAux, if_neg hn, ih _ hdiv, Nat.digits_def' (by norm_num : 1 < 10) hpos]
        simp

theorem natChars_eq (n : Nat) :
    natChars n = if n = 0 then ['0'] else ((Nat.digits 10 n).map Nat.digitChar).reverse := by
  unfold natChars
  by_cases hn : n = 0
  · simp [hn]
  · rw [if_neg hn, if_neg hn, natCharsAux_eq n n le_rfl]

theorem digitChar_val (d : Nat) (h : d < 10) : (Nat.digitChar d).toNat - 48 = d := by
  interval_cases d <;> rfl

theorem digitChar_notDot (d : Nat) (h : d < 10) : notDot (Nat.digitChar d) = true := by
  interval_cases d <;> rfl

theorem natChars_notDot (n : Nat) : ∀ c ∈ natChars n, notDot c = true := by
  intro c hc
  rw [natChars_eq] at hc
  split at hc
  · simp only [List.mem_singleton] at hc
    subst hc
    rfl
  · rw [List.mem_reverse, List.mem_map] at hc
    obtain ⟨d, hd, rfl⟩ := hc
    exact digitChar_notDot d (Nat.digits_lt_base (by norm_num) hd)

theorem takeWhile_notDot (l r : Str) (h : ∀ c ∈ l, notDot c = true) :
    (l ++ '.' :: r).takeWhile notDot = l := by
  induction l with
  | nil => simp [List.takeWhile_cons, notDot]
  | cons c l ih =>
      simp only [List.cons_append, List.takeWhile_cons]
      rw [h c (by simp)]
      simp only [if_true]
      rw [ih (fun c hc => h c (by simp [hc]))]

theorem dropWhile_notDot (l r : Str) (h : ∀ c ∈ l, notDot c = true) :
    (l ++ '.' :: r).dropWhile notDot = '.' :: r := by
  induction l with
  | nil => simp [List.dropWhile_cons, notDot]
  | cons c l ih =>
      simp only [List.cons_append, List.dropWhile_cons]
      rw [h c (by simp)]
      simp only [if_true]
      exact ih (fun c hc => h c (by simp [hc]))

theorem unDigits_aux (ds : List Nat) (h : ∀ d ∈ ds, d < 10) (a : Nat) :
    List.foldl (fun x c => x * 10 + (c.toNat - 48)) a ((ds.map Nat.digitChar).reverse)
      = a * 10 ^ ds.length + Nat.ofDigits 10 ds := by
  induction ds generalizing a with
  | nil => simp [Nat.ofDigits_nil]
  | cons d ds ih =>
      have hd : d < 10 := h d (by simp)
      have hds : ∀ x ∈ ds, x < 10 := fun x hx => h x (by simp [hx])
      simp only [List.map_cons, List.reverse_cons, List.foldl_append, List.foldl_cons,
        List.foldl_nil]
      rw [ih hds, digitChar_val d hd, Nat.ofDigits_cons, List.length_cons, pow_succ]
      ring

theorem unDigits_natChars (n : Nat) : unDigits (natChars n) = n := by
  rw [natChars_eq]
  unfold unDigits
  split
  · next hn => subst hn; rfl
  · rw [unDigits_aux (Nat.digits 10 n)
      (fun d hd => Nat.digits_lt_base (by norm_num) hd) 0]
    simp [Nat.ofDigits_digits]

theorem unDigits_cons_zero (l : Str) : unDigits ('0' :: l) = unDigits l := rfl

theorem parse2_fmt2 (c : Nat) : parse2 (fmt2 c) = c := by
  unfold parse2 fmt2
  rw [takeWhile_notDot _ _ (natChars_notDot _), dropWhile_notDot _ _ (natChars_notDot _)]
  simp only [List.drop_succ_cons, List.drop_zero, unDigits_natChars]
  split
  · rw [unDigits_cons_zero, unDigits_natChars]
    omega
  · rw [unDigits_natChars]
    omega

theorem padRow_suffix (l r : Str) : List.IsSuffix r (padRow l r) :=
  ⟨fitLine l r ++ pySpaces ((32 : Int) - (fitLine l r).length - r.length), rfl⟩

theorem padRow_fit (l r : Str) (h : l.length + r.length ≤ 32) :
    padRow l r = l ++ List.replicate (32 - l.length - r.length) ' ' ++ r
    ∧ (padRow l r).length = 32 := by
  have hf : fitLine l r = l := by
    unfold fitLine
    rw [if_neg (by omega)]
  have ht : ((32 : Int) - (l.length : Int) - (r.length : Int)).toNat
      = 32 - l.length - r.length := by omega
  have he : padRow l r = l ++ List.replicate (32 - l.length - r.length) ' ' ++ r := by
    unfold padRow pySpaces
    rw [hf, ht]
  refine ⟨he, ?_⟩
  rw [he]
  simp only [List.length_append, List.length_replicate]
  omega

theorem padRow_trunc (l r : Str) (h : 32 < l.length + r.length) (hr : r.length ≤ 31) :
    padRow l r = l.take (31 - r.length) ++ [' '] ++ r
    ∧ (padRow l r).length = 32 := by
  have hf : fitLine l r = l.take (31 - r.length) := by
    unfold fitLine pyTake
    rw [if_pos h, if_neg (by omega)]
    congr 1
    omega
  have hlen : (l.take (31 - r.length)).length = 31 - r.length := by
    rw [List.length_take]
    omega
  have hsp : ((32 : Int) - ((l.take (31 - r.length)).length : Int) - (r.length : Int)).toNat
      = 1 := by
    rw [hlen]
    omega
  have he : padRow l r = l.take (31 - r.length) ++ [' '] ++ r := by
    unfold padRow pySpaces
    rw [hf, hsp]
    rfl
  refine ⟨he, ?_⟩
  rw [he]
  simp only [List.length_append, List.length_cons, List.length_nil, hlen]
  omega

theorem close_notMem_escposCmds (store : Store) (items : List (Nat × Str × Nat))
    (total : Nat) (payment : Str) : UsbOp.close ∉ escposCmds store items total payment := by
  simp [escposCmds]

/-- Claim C2 (code bug): the source builds the TOTAL row as the literal
`TOTAL`, a fixed 27-space gap, then the 2-decimal total, so for the
concrete total 30.00 the row already present in the rendered receipt is
37 characters wide — 32 plus the amount's length — and not the 32
columns the claim states. -/
theorem claim_C2_main :
    totalRow 3000 = "TOTAL".data ++ List.replicate 27 ' ' ++ "30.00".data
    ∧ ("TOTAL".data ++ List.replicate 27 ' ' : Str).length = 32
    ∧ (fmt2 3000 : Str).length = 5
    ∧ (totalRow 3000).length = 37
    ∧ totalRow 3000 ∈ build_text_lines storeBH [] 3000 "Dinheiro".data := by
  refine ⟨by decide, by decide, by decide, by decide, by decide⟩

/-- Claim C3: every item row ends with the 2-decimal amount; when the
two parts fit in 32 columns, spaces are inserted between them and the
row is exactly 32 wide; when they overflow, the left part is hard
truncated to `32 - len(amount) - 1` characters (stated for amounts of
at most 31 characters, since the claim's own degenerate carve-out —
amounts that cannot fit at all — only promises an emitted row with the
amount rightmost, which the unconditional first conjunct gives). -/
theorem claim_C3_main (q : Nat) (n : Str) (p : Nat) :
    List.IsSuffix (fmt2 p) (itemRow q n p)
    ∧ ((natChars q ++ "x ".data ++ n).length + (fmt2 p).length ≤ 32 →
        itemRow q n p
          = (natChars q ++ "x ".data ++ n)
            ++ List.replicate
                 (32 - (natChars q ++ "x ".data ++ n).length - (fmt2 p).length) ' '
            ++ fmt2 p
        ∧ (itemRow q n p).length = 32)
    ∧ (32 < (natChars q ++ "x ".data ++ n).length + (fmt2 p).length →
        (fmt2 p).length ≤ 31 →
        itemRow q n p
          = (natChars q ++ "x ".data ++ n).take (31 - (fmt2 p).length) ++ [' '] ++ fmt2 p
        ∧ (itemRow q n p).length = 32) := by
  refine ⟨padRow_suffix _ _, fun h => ?_, fun h hr => ?_⟩
  · simp only [itemRow]
    exact padRow_fit _ _ h
  · simp only [itemRow]
    exact padRow_trunc _ _ h hr

/-- Witness for C3: a 40-character description is truncated to a
32-column row still ending in `25.00`. -/
theorem claim_C3_witness :
    (itemRow 1 (List.replicate 40 'a') 2500).length = 32
    ∧ itemRow 1 (List.replicate 40 'a') 2500
        = (natChars 1 ++ "x ".data ++ List.replicate 40 'a').take (31 - (fmt2 2500).length)
          ++ [' '] ++ fmt2 2500 := by
  have h := (claim_C3_main 1 (List.replicate 40 'a') 2500).2.2 (by decide) (by decide)
  exact ⟨h.2, h.1⟩

/-- Claim C7 as amended: for header text that fits in 32 columns,
`str.center(32)` pads both sides with the extra space going right on an
odd remainder and the row is exactly 32 wide; text longer than 32
columns is emitted unchanged, which is what the counterexample forces
the amendment to exclude. -/
theorem claim_C7_main (s : Str) (h : s.length ≤ 32) :
    pyCenter s 32
      = List.replicate ((32 - s.length) / 2) ' ' ++ s
        ++ List.replicate ((32 - s.length) - (32 - s.length) / 2) ' '
    ∧ (pyCenter s 32).length = 32
    ∧ (32 - s.length) / 2 ≤ (32 - s.length) - (32 - s.length) / 2 := by
  unfold pyCenter
  by_cases h32 : 32 ≤ s.length
  · have hs : s.length = 32 := le_antisymm h h32
    rw [if_pos h32, hs]
    norm_num
  · rw [if_neg h32]
    have hz : (32 - s.length) % 2 * (32 % 2) = 0 := by
      norm_num
    rw [hz, Nat.add_zero]
    refine ⟨rfl, ?_, by omega⟩
    simp only [List.length_append, List.length_replicate]
    omega

/-- Witness for C7: the 12-character store name of the worked example is
centered to a 32-column row. -/
theorem claim_C7_witness : (pyCenter "Burger House".data 32).length = 32 :=
  (claim_C7_main "Burger House".data (by decide)).2.1

/-- Counterexample for C7: a 33-character store name is emitted as the
receipt's first row completely unpadded, 33 columns wide, so the header
row is not centered in 32 columns for every store name. -/
theorem claim_C7_counterexample :
    (build_text_lines ⟨some name33, none, none⟩ [] 0 []).head? = some name33
    ∧ name33.length = 33
    ∧ pyCenter name33 32 = name33
    ∧ (pyCenter name33 32).length = 33 := by
  refine ⟨by decide, by decide, by decide, by decide⟩

theorem floatCents_of_mod (x : Dyadic) (h : 100 * x.num % 2 ^ x.exp = 0) :
    floatCents x = 100 * x.num / 2 ^ x.exp := by
  unfold floatCents
  rw [h]
  rw [if_neg (by omega)]
  rw [if_pos (by
    have := pow_pos (by norm_num : (0 : ℕ) < 2) x.exp
    omega)]

theorem wholeCents_dyAdd (x y : Dyadic) (hx : wholeCents x) (hy : wholeCents y) :
    wholeCents (dyAdd x y)
    ∧ floatCents (dyAdd x y) = floatCents x + floatCents y := by
  obtain ⟨c1, h1⟩ := Nat.dvd_of_mod_eq_zero hx
  obtain ⟨c2, h2⟩ := Nat.dvd_of_mod_eq_zero hy
  have hnum : 100 * (dyAdd x y).num = 2 ^ (dyAdd x y).exp * (c1 + c2) := by
    show 100 * (x.num * 2 ^ y.exp + y.num * 2 ^ x.exp) = 2 ^ (x.exp + y.exp) * (c1 + c2)
    have hr : 100 * (x.num * 2 ^ y.exp + y.num * 2 ^ x.exp)
        = (100 * x.num) * 2 ^ y.exp + (100 * y.num) * 2 ^ x.exp := by ring
    rw [hr, h1, h2, pow_add]
    ring
  have hmod : 100 * (dyAdd x y).num % 2 ^ (dyAdd x y).exp = 0 := by
    rw [hnum]
    exact Nat.mul_mod_right _ _
  refine ⟨hmod, ?_⟩
  rw [floatCents_of_mod _ hmod, floatCents_of_mod _ hx, floatCents_of_mod _ hy,
    hnum, h1, h2]
  rw [Nat.mul_div_cancel_left _ (pow_pos (by norm_num : (0 : ℕ) < 2) _),
    Nat.mul_div_cancel_left _ (pow_pos (by norm_num : (0 : ℕ) < 2) _),
    Nat.mul_div_cancel_left _ (pow_pos (by norm_num : (0 : ℕ) < 2) _)]

theorem wholeCents_dySum (l : List Dyadic) (h : ∀ x ∈ l, wholeCents x) :
    wholeCents (dySum l) ∧ floatCents (dySum l) = (l.map floatCents).sum := by
  induction l with
  | nil => exact ⟨by decide, by decide⟩
  | cons x l ih =>
      have hx := h x (by simp)
      have hl := ih (fun y hy => h y (by simp [hy]))
      have hadd := wholeCents_dyAdd x (dySum l) hx hl.1
      refine ⟨hadd.1, ?_⟩
      show floatCents (dyAdd x (dySum l)) = ((x :: l).map floatCents).sum
      rw [hadd.2, hl.2]
      simp

theorem wholeCents_of_dyEq (t s : Dyadic) (hs : wholeCents s) (h : dyEq t s) :
    wholeCents t ∧ 100 * t.num / 2 ^ t.exp = 100 * s.num / 2 ^ s.exp := by
  obtain ⟨c, hc⟩ := Nat.dvd_of_mod_eq_zero hs
  have key : 2 ^ s.exp * (100 * t.num) = 2 ^ s.exp * (c * 2 ^ t.exp) := by
    calc 2 ^ s.exp * (100 * t.num) = 100 * (t.num * 2 ^ s.exp) := by ring
    _ = 100 * (s.num * 2 ^ t.exp) := by rw [h]
    _ = (100 * s.num) * 2 ^ t.exp := by ring
    _ = (2 ^ s.exp * c) * 2 ^ t.exp := by rw [hc]
    _ = 2 ^ s.exp * (c * 2 ^ t.exp) := by ring
  have ht : 100 * t.num = c * 2 ^ t.exp :=
    Nat.eq_of_mul_eq_mul_left (pow_pos (by norm_num : (0 : ℕ) < 2) s.exp) key
  constructor
  · show 100 * t.num % 2 ^ t.exp = 0
    rw [ht]
    exact Nat.mul_mod_left _ _
  · rw [ht, hc, Nat.mul_div_cancel _ (pow_pos (by norm_num : (0 : ℕ) < 2) t.exp),
      Nat.mul_div_cancel_left _ (pow_pos (by norm_num : (0 : ℕ) < 2) s.exp)]

/-- Claim C8 as amended: for carts whose float line totals have no
sub-cent part (100 times each value is an integer) and whose total is
the exact sum of the line totals, the displayed per-row amounts (read
back from their 2-decimal renderings) sum to the amount displayed on
the TOTAL row; that total amount sits as the suffix of the TOTAL row
and the item rows sit verbatim inside the rendered receipt.  The
sub-cent restriction is what the counterexample (0.125-valued lines)
forces: half-even rounding of sub-cent values breaks the sum. -/
theorem claim_C8_main (store : Store) (items : List (Nat × Str × Dyadic))
    (total : Dyadic) (payment : Str)
    (hwc : ∀ it ∈ items, wholeCents it.2.2)
    (h : dyEq total (dySum (items.map (fun it => it.2.2)))) :
    (items.map (fun it => parse2 (fmt2f it.2.2))).sum = parse2 (fmt2f total)
    ∧ List.IsSuffix (fmt2f total) (totalRowF total)
    ∧ List.IsInfix (items.map (fun it => itemRowF it.1 it.2.1 it.2.2))
        (build_text_lines_f store items total payment) := by
  have hs := wholeCents_dySum (items.map (fun it => it.2.2))
    (by
      intro x hx
      rw [List.mem_map] at hx
      obtain ⟨it, hit, rfl⟩ := hx
      exact hwc it hit)
  have hv := wholeCents_of_dyEq total (dySum (items.map (fun it => it.2.2))) hs.1 h
  refine ⟨?_, ⟨"TOTAL".data ++ List.replicate 27 ' ', rfl⟩, ?_⟩
  · have hp : ∀ z : Dyadic, parse2 (fmt2f z) = floatCents z := fun z => parse2_fmt2 _
    simp only [hp]
    rw [floatCents_of_mod total hv.1, hv.2, ← floatCents_of_mod _ hs.1, hs.2,
      List.map_map]
    rfl
  · refine ⟨[pyCenter (store.name.getD "Minha Loja".data) 32]
      ++ (if store.address.getD [] ≠ [] then [pyCenter (store.address.getD []) 32] else [])
      ++ (if store.phone.getD [] ≠ [] then [pyCenter ("Tel: ".data ++ store.phone.getD []) 32] else [])
      ++ [sep32],
      [sep32, totalRow (floatCents total), "Pagamento: ".data ++ payment, sep32,
       "Obrigado!".data, ['\n']], ?_⟩
    simp [build_text_lines_f, build_text_lines, itemRowF, List.map_map,
      List.append_assoc, Function.comp]

/-- Witness for C8 (amended): the worked example cart with whole-cent
float line totals 25.00 and 5.00 summing exactly to 30.00. -/
theorem claim_C8_witness :
    (itemsD.map (fun it => parse2 (fmt2f it.2.2))).sum = parse2 (fmt2f ⟨30, 0⟩) :=
  (claim_C8_main storeBH itemsD ⟨30, 0⟩ "Dinheiro".data (by decide) (by decide)).1

/-- Counterexample for C8 as frozen: a cart of two lines whose float
line totals are exactly 0.125 (a value a binary double holds exactly)
sums exactly to 0.25, yet each rendered row displays `0.12` (half-even
rounding of 12.5 cents) while the TOTAL row displays `0.25`: the
displayed amounts sum to 24 cents against a displayed total of 25. -/
theorem claim_C8_counterexample :
    dyEq quarter (dySum (itemsF.map (fun it => it.2.2)))
    ∧ fmt2f eighth = "0.12".data
    ∧ fmt2f quarter = "0.25".data
    ∧ (itemsF.map (fun it => parse2 (fmt2f it.2.2))).sum = 24
    ∧ parse2 (fmt2f quarter) = 25
    ∧ itemRowF 1 "Bala".data eighth
        = "1x Bala".data ++ List.replicate 21 ' ' ++ "0.12".data
    ∧ totalRowF quarter = "TOTAL".data ++ List.replicate 27 ' ' ++ "0.25".data := by
  refine ⟨by decide, by decide, by decide, by decide, by decide, by decide, by decide⟩

/-- Claim C9: the receipt formatter is a total function of its inputs;
on an empty cart it produces exactly the header row (name defaulting to
`'Minha Loja'`), the optional address and phone rows, two adjacent
separators with no item rows between them, the TOTAL row, the payment
row, a separator, the thank-you row and the trailing blank element, the
whole joined by newlines and UTF-8 encoded. -/
theorem claim_C9_main (store : Store) (total : Nat) (payment : Str) :
    build_text_lines store [] total payment =
      [pyCenter (store.name.getD "Minha Loja".data) 32]
      ++ (if store.address.getD [] ≠ [] then [pyCenter (store.address.getD []) 32] else [])
      ++ (if store.phone.getD [] ≠ [] then [pyCenter ("Tel: ".data ++ store.phone.getD []) 32] else [])
      ++ [sep32, sep32, totalRow total, "Pagamento: ".data ++ payment, sep32,
          "Obrigado!".data, ['\n']]
    ∧ build_text store [] total payment
        = encodeUtf8 (List.intercalate ['\n'] (build_text_lines store [] total payment)) := by
  constructor
  · simp [build_text_lines]
  · rfl

/-- Witness for C9: a store with only an address, printed with an empty
cart. -/
theorem claim_C9_witness :
    build_text ⟨none, some "Rua X".data, none⟩ [] 500 "PIX".data
      = encodeUtf8 (List.intercalate ['\n']
          (build_text_lines ⟨none, some "Rua X".data, none⟩ [] 500 "PIX".data)) :=
  (claim_C9_main ⟨none, some "Rua X".data, none⟩ 500 "PIX".data).2

/-- Claim C1 as amended: provided the configured port parses as an
integer, `print_receipt` routes to the USB/ESC-POS transport exactly
when the mode is `escpos_usb`, the backend is available and both ids
are non-empty; in every other case it invokes the network transport on
the configured ip, the parsed port and the built receipt bytes,
returning that call's result directly. -/
theorem claim_C1_main (avail : Bool) (db : Database) (store : Store)
    (items : List (Nat × Str × Nat)) (total : Nat) (payment : Str) (port : Int)
    (h : pyIntParse (db.get_setting_val "printer_port" "9100") = some port) :
    ((print_receipt avail db store items total payment).1.isUsb = true ↔
      (db.get_setting_val "printer_mode" "network" = "escpos_usb" ∧ avail = true ∧
       db.get_setting_val "printer_usb_vendor" "" ≠ "" ∧
       db.get_setting_val "printer_usb_product" "" ≠ ""))
    ∧ ((db.get_setting_val "printer_mode" "network" = "escpos_usb" ∧ avail = true ∧
        db.get_setting_val "printer_usb_vendor" "" ≠ "" ∧
        db.get_setting_val "printer_usb_product" "" ≠ "") →
        (print_receipt avail db store items total payment).1 =
          Outcome.usbAttempt (pyHexParse (db.get_setting_val "printer_usb_vendor" ""))
            (pyHexParse (db.get_setting_val "printer_usb_product" "")))
    ∧ (¬ (db.get_setting_val "printer_mode" "network" = "escpos_usb" ∧ avail = true ∧
          db.get_setting_val "printer_usb_vendor" "" ≠ "" ∧
          db.get_setting_val "printer_usb_product" "" ≠ "") →
        (print_receipt avail db store items total payment).1 =
          Outcome.netSend (db.get_setting_val "printer_ip" "192.168.0.100") port
            (build_text store items total payment)) := by
  simp only [print_receipt, Database.get_setting, h]
  by_cases hm : db.get_setting_val "printer_mode" "network" = "network"
  · rw [if_pos hm]
    refine ⟨?_, ?_, fun _ => rfl⟩
    · simp only [Outcome.isUsb]
      constructor
      · intro hf
        exact absurd hf (by simp)
      · rintro ⟨h1, -⟩
        rw [hm] at h1
        exact absurd h1 (by decide)
    · rintro ⟨h1, -⟩
      rw [hm] at h1
      exact absurd h1 (by decide)
  · rw [if_neg hm]
    by_cases hc : (db.get_setting_val "printer_mode" "network" = "escpos_usb" ∧ avail = true ∧
        db.get_setting_val "printer_usb_vendor" "" ≠ "" ∧
        db.get_setting_val "printer_usb_product" "" ≠ "")
    · rw [if_pos hc]
      exact ⟨by simp [Outcome.isUsb, hc], fun _ => rfl, fun hnc => absurd hc hnc⟩
    · rw [if_neg hc]
      exact ⟨by simp [Outcome.isUsb, hc], fun hcc => absurd hcc hc, fun _ => rfl⟩

/-- Witness for C1: USB mode, backend available, both ids set, default
port — the dispatcher selects the USB transport. -/
theorem claim_C1_witness :
    (print_receipt true dbUsbOk store0 [] 0 []).1.isUsb = true := by
  have h := claim_C1_main true dbUsbOk store0 [] 0 [] 9100 (by decide)
  exact h.1.mpr ⟨by decide, rfl, by decide, by decide⟩

/-- Counterexample for C1 as frozen: in a configuration whose mode is
`escpos_usb` with backend available and both ids non-empty but whose
port setting is `"abc"`, `print_receipt` neither selects the USB
transport nor falls back to the network transport — it aborts on the
port parse — so the unconditional selection claim fails. -/
theorem claim_C1_counterexample :
    dbPortBad.get_setting_val "printer_mode" "network" = "escpos_usb"
    ∧ (dbPortBad.get_setting_val "printer_usb_vendor" "" == "") = false
    ∧ (dbPortBad.get_setting_val "printer_usb_product" "" == "") = false
    ∧ (print_receipt true dbPortBad store0 [] 0 []).1 = Outcome.errInvalidPort
    ∧ Outcome.isUsb Outcome.errInvalidPort = false
    ∧ Outcome.isNet Outcome.errInvalidPort = false := by
  refine ⟨by decide, by decide, by decide, by decide, rfl, rfl⟩

/-- Claim C4: a non-numeric port setting makes `print_receipt` fail
with the invalid-port configuration error (Python's `ValueError` from
`int(...)` at line 117) before either transport is invoked — the
outcome is neither a network send nor a USB attempt. -/
theorem claim_C4_main (avail : Bool) (db : Database) (store : Store)
    (items : List (Nat × Str × Nat)) (total : Nat) (payment : Str)
    (h : pyIntParse (db.get_setting_val "printer_port" "9100") = none) :
    (print_receipt avail db store items total payment).1 = Outcome.errInvalidPort
    ∧ Outcome.isNet (print_receipt avail db store items total payment).1 = false
    ∧ Outcome.isUsb (print_receipt avail db store items total payment).1 = false := by
  simp [print_receipt, Database.get_setting, h, Outcome.isNet, Outcome.isUsb]

/-- Witness for C4: the literal configuration value `"abc"`. -/
theorem claim_C4_witness :
    (print_receipt false dbPortBad store0 [] 0 []).1 = Outcome.errInvalidPort :=
  (claim_C4_main false dbPortBad store0 [] 0 [] (by decide)).1

/-- Claim C5: for every socket behaviour, host, port and payload, the
network transport closes its socket (success, connect refusal, timeout
or write error), sets the 5-second timeout, performs exactly one
`sendall` of the whole byte block on success, and raises the underlying
error unchanged on failure. -/
theorem claim_C5_main (sock : SocketSpec) (ip : String) (port : Int)
    (data : List Nat) :
    (print_network sock ip port data).closed = true
    ∧ (print_network sock ip port data).timeoutSec = some 5
    ∧ (sock.connectErr = none → sock.sendErr = none →
        print_network sock ip port data = ⟨Except.ok true, true, [data], some 5⟩)
    ∧ (∀ e, sock.connectErr = some e →
        print_network sock ip port data = ⟨Except.error e, true, [], some 5⟩)
    ∧ (∀ e, sock.connectErr = none → sock.sendErr = some e →
        print_network sock ip port data = ⟨Except.error e, true, [], some 5⟩) := by
  obtain ⟨ce, se⟩ := sock
  cases ce <;> cases se <;> simp [print_network]

/-- Witness for C5: a successful connect and send. -/
theorem claim_C5_witness :
    print_network ⟨none, none⟩ "192.168.0.100" 9100 [27, 64]
      = ⟨Except.ok true, true, [[27, 64]], some 5⟩ :=
  (claim_C5_main ⟨none, none⟩ "192.168.0.100" 9100 [27, 64]).2.2.1 rfl rfl

/-- Claim C6 as amended: `_print_escpos_usb` opens the device and
issues the text lines and the cut, but never issues a close/release —
on success, on a command failure at any point of the sequence, and when
the backend is missing, the trace of device operations contains no
close.  Release of the device is not performed by this function. -/
theorem claim_C6_main (avail : Bool) (failAt : Option Nat) (vendor product : Int)
    (store : Store) (items : List (Nat × Str × Nat)) (total : Nat) (payment : Str) :
    UsbOp.close ∉ (run_escpos_usb avail failAt vendor product store items total payment).1
    ∧ (avail = true → failAt = none →
        (run_escpos_usb avail failAt vendor product store items total payment).1
          = UsbOp.openDev vendor product :: escposCmds store items total payment
        ∧ (run_escpos_usb avail failAt vendor product store items total payment).2
          = UsbRes.ok) := by
  have hfull : UsbOp.close ∉
      UsbOp.openDev vendor product :: escposCmds store items total payment := by
    intro hmem
    rcases List.mem_cons.mp hmem with h1 | h1
    · exact absurd h1 (by simp)
    · exact close_notMem_escposCmds store items total payment h1
  cases avail with
  | false =>
      refine ⟨?_, fun hav => absurd hav (by simp)⟩
      simp [run_escpos_usb]
  | true =>
      cases failAt with
      | none =>
          refine ⟨?_, fun _ _ => ?_⟩
          · simpa [run_escpos_usb] using hfull
          · constructor <;> simp [run_escpos_usb]
      | some k =>
          refine ⟨?_, fun _ hk => absurd hk (by simp)⟩
          simp only [run_escpos_usb]
          rw [if_neg (by decide : ¬ (true = false))]
          split
          · intro hmem
            exact hfull (List.take_subset _ _ hmem)
          · exact hfull

/-- Witness for C6 (amended): the full successful run on the worked
example issues the open, the text sequence and the cut, and no close. -/
theorem claim_C6_witness :
    (run_escpos_usb true none 1208 514 storeBH itemsEx 3000 "Dinheiro".data).1
      = UsbOp.openDev 1208 514 :: escposCmds storeBH itemsEx 3000 "Dinheiro".data
    ∧ (run_escpos_usb true none 1208 514 storeBH itemsEx 3000 "Dinheiro".data).2
      = UsbRes.ok :=
  (claim_C6_main true none 1208 514 storeBH itemsEx 3000 "Dinheiro".data).2 rfl rfl

/-- Counterexample for C6 as frozen: on a concrete successful print the
command sequence completes (open, texts, cut) yet the trace contains no
close at all, so the device is not released by the function. -/
theorem claim_C6_counterexample :
    (run_escpos_usb true none 1208 514 storeBH itemsEx 3000 "Dinheiro".data).2 = UsbRes.ok
    ∧ (run_escpos_usb true none 1208 514 storeBH itemsEx 3000
        "Dinheiro".data).1.count UsbOp.close = 0
    ∧ ((run_escpos_usb true none 1208 514 storeBH itemsEx 3000
        "Dinheiro".data).1.getLast? = some UsbOp.cut) := by
  refine ⟨by decide, by decide, by decide⟩

/-- Claim C10: `print_receipt` leaves the database — settings,
products and sales — exactly as it found it, for every configuration,
availability flag and input: the only database operations it performs
are `get_setting` reads. -/
theorem claim_C10_main (avail : Bool) (db : Database) (store : Store)
    (items : List (Nat × Str × Nat)) (total : Nat) (payment : Str) :
    (print_receipt avail db store items total payment).2 = db := by
  simp only [print_receipt, Database.get_setting]
  split
  · rfl
  · split
    · rfl
    · split
      · rfl
      · rfl
